import Mathlib

/-!
Shallow embedding of `scripts/generate-cron-events.py` (aurora-health).

The script aggregates schedule metadata from three sources into one JSON
document.  Pure string-processing functions (`parse_cron_expression`,
`parse_schedule`) are translated directly; the stateful loaders are
translated as functions over explicit input states (the outcome of the
file reads / process invocation), returning the produced events together
with the warnings printed.  Python exceptions are modelled by `Except`
values; machine-level concerns do not arise (all arithmetic is small-int).
-/

deriving instance DecidableEq for Except

namespace CronGen

/-! ### Python string primitives, modelled over `List Char` -/

/-- Model of Python `str.split()` (split on whitespace runs, no empty
fields): accumulator-based scan. -/
def splitWsAux : List Char → List Char → List String
  | [], acc => if acc = [] then [] else [String.mk acc.reverse]
  | c :: t, acc =>
    if c.isWhitespace then
      if acc = [] then splitWsAux t []
      else String.mk acc.reverse :: splitWsAux t []
    else splitWsAux t (c :: acc)

/-- Python `s.split()` on a string. -/
def pySplit (s : String) : List String := splitWsAux s.data []

/-- Python `str.strip()` over a char list. -/
def trimL (cs : List Char) : List Char :=
  ((cs.dropWhile Char.isWhitespace).reverse.dropWhile Char.isWhitespace).reverse

/-- Python `s.split("\n")` (keeps empty fields). -/
def splitOnNlAux : List Char → List Char → List String
  | [], acc => [String.mk acc.reverse]
  | c :: t, acc =>
    if c = '\n' then String.mk acc.reverse :: splitOnNlAux t []
    else splitOnNlAux t (c :: acc)

/-- Python `s.split("\n")` on a char list. -/
def splitOnNl (cs : List Char) : List String := splitOnNlAux cs []

/-- Python `s.startswith(pre)`. -/
def pyStartsWith (s pre : String) : Bool := pre.data.isPrefixOf s.data

/-- Python `s.endswith(suf)`. -/
def pyEndsWith (s suf : String) : Bool := suf.data.isSuffixOf s.data

/-- Substring test over char lists (Python `sub in s`). -/
def containsSub (s p : List Char) : Bool :=
  match s with
  | [] => p = []
  | c :: t => p.isPrefixOf (c :: t) || containsSub t p

/-- Python `sub in s` on strings. -/
def pyContains (s sub : String) : Bool := containsSub s.data sub.data

/-- Python `s.lower()` (ASCII range, which is all the script feeds it). -/
def pyLower (s : String) : String := String.mk (s.data.map Char.toLower)

/-- Python `s[:n]` (take the first `n` characters). -/
def pyTake (s : String) (n : Nat) : String := String.mk (s.data.take n)

/-- Python `s[n:]` (drop the first `n` characters). -/
def pyDrop (s : String) (n : Nat) : String := String.mk (s.data.drop n)

/-- Python `s.capitalize()`: first character upper-cased, rest lower-cased. -/
def pyCapitalize (s : String) : String :=
  match s.data with
  | [] => ""
  | c :: t => String.mk (c.toUpper :: t.map Char.toLower)

/-- Python `s.zfill(w)`: left-pad with zeros to width `w`, keeping a
leading sign character in front of the padding. -/
def pyZfill (s : String) (w : Nat) : String :=
  if w ≤ s.data.length then s
  else
    let pad := List.replicate (w - s.data.length) '0'
    match s.data with
    | [] => String.mk pad
    | c :: rest =>
      if c = '+' ∨ c = '-' then String.mk (c :: (pad ++ rest))
      else String.mk (pad ++ (c :: rest))

/-- Numeric value of a digit string. -/
def digitsToNat (cs : List Char) : Nat :=
  cs.foldl (fun a c => a * 10 + (c.toNat - 48)) 0

/-- Model of Python `int(s)`: optional surrounding whitespace, optional
sign, then a nonempty run of decimal digits; anything else raises
`ValueError`, modelled as `none`. -/
def pyInt (s : String) : Option Int :=
  match trimL s.data with
  | [] => none
  | '+' :: rest =>
    if rest ≠ [] ∧ rest.all Char.isDigit then some (digitsToNat rest : Int) else none
  | '-' :: rest =>
    if rest ≠ [] ∧ rest.all Char.isDigit then some (-(digitsToNat rest : Int)) else none
  | cs =>
    if cs.all Char.isDigit then some (digitsToNat cs : Int) else none

/-- Python `f"{n:02d}"`: decimal rendering zero-padded to total width 2
(the sign counts toward the width). -/
def fmt02 (n : Int) : String :=
  if n < 0 then "-" ++ pyZfill (Nat.repr (-n).toNat) 1
  else pyZfill (Nat.repr n.toNat) 2

/-- Python `str.replace(p, r)` for a nonempty pattern `p`: replace every
non-overlapping occurrence left to right (fuel-structured recursion; the
script only replaces the nonempty patterns ".timer" and "-"). -/
def replaceAllAux : Nat → List Char → List Char → List Char → List Char
  | 0, s, _, _ => s
  | _ + 1, [], _, _ => []
  | fuel + 1, c :: t, p, r =>
    if (!p.isEmpty) && p.isPrefixOf (c :: t) then
      r ++ replaceAllAux fuel ((c :: t).drop p.length) p r
    else
      c :: replaceAllAux fuel t p r

/-- Python `s.replace(p, r)` over char lists (nonempty `p`). -/
def replaceAll (s p r : List Char) : List Char := replaceAllAux s.length s p r

/-- Python `str.title()`: upper-case every alphabetic character that
follows a non-alphabetic one, lower-case the rest. -/
def pyTitleAux : List Char → Bool → List Char
  | [], _ => []
  | c :: t, prevAlpha =>
    (if c.isAlpha then (if prevAlpha then c.toLower else c.toUpper) else c)
      :: pyTitleAux t c.isAlpha

/-- Python `s.title()` on a string. -/
def pyTitle (s : String) : String := String.mk (pyTitleAux s.data false)

/-! ### The Schedule record and the cron-expression normalizer -/

/-- The normalized schedule record `{display, frequency, times[, day]}`
produced by both normalizer entry points.  The optional `day` key is
`none` when the Python dict has no `"day"` entry. -/
structure Schedule where
  display : String
  frequency : String
  times : List String
  day : Option String := none
  deriving Repr, DecidableEq

/-- `parse_cron_expression` from the script.  A Python exception escaping
the function (the `int()` calls in the daily branch) is modelled as
`Except.error`; every normal return is `Except.ok`. -/
def parse_cron_expression (cron_expr : String) : Except String Schedule :=
  let parts := pySplit cron_expr
  if parts.length = 5 then
    let minute := parts.getD 0 ""
    let hour := parts.getD 1 ""
    let day := parts.getD 2 ""
    let month := parts.getD 3 ""
    let weekday := parts.getD 4 ""
    if pyStartsWith minute "*/" then
      let interval := pyDrop minute 2
      .ok { display := "every " ++ interval ++ " min",
            frequency := "every-" ++ interval ++ "-min",
            times := ["recurring"] }
    else if hour = "*" ∧ day = "*" ∧ month = "*" ∧ weekday = "*" then
      .ok { display := "hourly :" ++ pyZfill minute 2,
            frequency := "hourly",
            times := [":" ++ pyZfill minute 2] }
    else if day = "*" ∧ month = "*" ∧ weekday = "*" then
      match (if hour ≠ "*" then pyInt hour else some 0),
            (if minute ≠ "*" then pyInt minute else some 0) with
      | some h, some m =>
        let time_str := fmt02 h ++ ":" ++ fmt02 m
        let am_pm := if h < 12 then "am" else "pm"
        let display_h0 := if h ≤ 12 then h else h - 12
        let display_h := if display_h0 = 0 then (12 : Int) else display_h0
        .ok { display := "daily " ++ toString display_h ++ ":" ++ fmt02 m ++ am_pm,
              frequency := "daily",
              times := [time_str] }
      | _, _ => .error "ValueError: invalid literal for int"
    else
      .ok { display := cron_expr, frequency := "custom", times := [] }
  else
    .ok { display := cron_expr, frequency := "unknown", times := [] }

example : parse_cron_expression "*/30 * * * *" =
    .ok { display := "every 30 min", frequency := "every-30-min",
          times := ["recurring"] } := by decide

example : parse_cron_expression "5 * * * *" =
    .ok { display := "hourly :05", frequency := "hourly", times := [":05"] } := by decide

example : parse_cron_expression "30 14 * * *" =
    .ok { display := "daily 2:30pm", frequency := "daily", times := ["14:30"] } := by decide

example : parse_cron_expression "0 0 * * *" =
    .ok { display := "daily 12:00am", frequency := "daily", times := ["00:00"] } := by decide

example : parse_cron_expression "0 12 * * *" =
    .ok { display := "daily 12:00pm", frequency := "daily", times := ["12:00"] } := by decide

example : parse_cron_expression "0 9 * * 1" =
    .ok { display := "0 9 * * 1", frequency := "custom", times := [] } := by decide

example : parse_cron_expression "* * * *" =
    .ok { display := "* * * *", frequency := "unknown", times := [] } := by decide

/-! ### Claims C1, C3, C4, C5: the cron-expression normalizer -/

/-- Claim C1, counterexample: `"* * * *"` has 4 whitespace-split fields,
and `parse_cron_expression` returns `frequency = "unknown"`, not the
`"custom"` the claim requires. -/
theorem C1_counterexample :
    (pySplit "* * * *").length ≠ 5 ∧
    parse_cron_expression "* * * *" =
      .ok { display := "* * * *", frequency := "unknown", times := [] } ∧
    ("unknown" : String) ≠ "custom" := by
  refine ⟨by decide, by decide, by decide⟩

/-- Claim C1 (amended): for every string whose whitespace-split field
count is not 5, `parse_cron_expression` returns a record with
`frequency = "unknown"` (not `"custom"`), `display` equal to the raw
input string and empty `times`, and it never raises an exception
(the result is always `Except.ok`). -/
theorem C1_non_five_fields_unknown (s : String) (h : (pySplit s).length ≠ 5) :
    parse_cron_expression s =
      .ok { display := s, frequency := "unknown", times := [] } := by
  simp only [parse_cron_expression, if_neg h]

/-- Witness for `C1_non_five_fields_unknown` at the concrete input
`"* * * *"`. -/
theorem C1_non_five_fields_unknown_witness :
    parse_cron_expression "* * * *" =
      .ok { display := "* * * *", frequency := "unknown", times := [] } :=
  C1_non_five_fields_unknown "* * * *" (by decide)

/-- Claim C3: for every 5-field cron expression whose minute field starts
with `"*/"`, `parse_cron_expression` returns
`frequency = "every-N-min"` (N the text after `"*/"`) and
`times = ["recurring"]`, regardless of the other four fields — the rule
short-circuits the hourly and daily rules. -/
theorem C3_step_minute (s m hr d mo w : String)
    (hs : pySplit s = [m, hr, d, mo, w])
    (hstep : pyStartsWith m "*/" = true) :
    parse_cron_expression s =
      .ok { display := "every " ++ pyDrop m 2 ++ " min",
            frequency := "every-" ++ pyDrop m 2 ++ "-min",
            times := ["recurring"] } := by
  simp [parse_cron_expression, hs, hstep]

/-- Witness for `C3_step_minute`: `"*/30 9 1 1 1"` has non-wildcard
other fields, yet the step rule fires. -/
theorem C3_step_minute_witness :
    parse_cron_expression "*/30 9 1 1 1" =
      .ok { display := "every " ++ pyDrop "*/30" 2 ++ " min",
            frequency := "every-" ++ pyDrop "*/30" 2 ++ "-min",
            times := ["recurring"] } :=
  C3_step_minute "*/30 9 1 1 1" "*/30" "9" "1" "1" "1" (by decide) (by decide)

/-- Claim C4: for every 5-field cron expression with hour, day, month and
weekday all `"*"` and a fixed (non-wildcard, non-step) minute `m`,
`parse_cron_expression` returns `frequency = "hourly"` and
`times = [":" ++ m zero-padded to two digits]`. -/
theorem C4_hourly (s m : String)
    (hs : pySplit s = [m, "*", "*", "*", "*"])
    (hwild : m ≠ "*")
    (hstep : pyStartsWith m "*/" = false) :
    parse_cron_expression s =
      .ok { display := "hourly :" ++ pyZfill m 2,
            frequency := "hourly",
            times := [":" ++ pyZfill m 2] } := by
  simp [parse_cron_expression, hs, hstep]

/-- Witness for `C4_hourly` at `"5 * * * *"`. -/
theorem C4_hourly_witness :
    parse_cron_expression "5 * * * *" =
      .ok { display := "hourly :" ++ pyZfill "5" 2,
            frequency := "hourly",
            times := [":" ++ pyZfill "5" 2] } :=
  C4_hourly "5 * * * *" "5" (by decide) (by decide) (by decide)

/-- Claim C5: for every 5-field cron expression (not step-minute, not
hourly) with day, month, weekday all `"*"` and hour fixed,
`parse_cron_expression` returns `frequency = "daily"`, substitutes 0 for
a wildcard minute, and renders the display hour in 12-hour am/pm form:
hour 12 renders as `12pm`, hour 0 renders as `12am`, and every hour
`k` or `k + 12` with `1 ≤ k ≤ 12` renders as `k`, never as `0`. -/
theorem C5_daily (s m hr : String) (hv mv : Int)
    (hs : pySplit s = [m, hr, "*", "*", "*"])
    (hstep : pyStartsWith m "*/" = false)
    (hhw : hr ≠ "*")
    (hhv : pyInt hr = some hv)
    (hmv : (if m ≠ "*" then pyInt m else some 0) = some mv) :
    ∃ sched : Schedule,
      parse_cron_expression s = .ok sched ∧
      sched.frequency = "daily" ∧
      sched.times = [fmt02 hv ++ ":" ++ fmt02 mv] ∧
      (hv = 12 → sched.display = "daily 12:" ++ fmt02 mv ++ "pm") ∧
      (hv = 0 → sched.display = "daily 12:" ++ fmt02 mv ++ "am") ∧
      (∀ k : Int, 1 ≤ k → k ≤ 12 → (hv = k ∨ hv = k + 12) →
        sched.display =
          "daily " ++ toString k ++ ":" ++ fmt02 mv ++
            (if hv < 12 then "am" else "pm")) := by
  have hrec : parse_cron_expression s =
      .ok { display :=
              "daily " ++
                toString
                  (if (if hv ≤ 12 then hv else hv - 12) = 0 then (12 : Int)
                   else if hv ≤ 12 then hv else hv - 12) ++
                ":" ++ fmt02 mv ++ (if hv < 12 then "am" else "pm"),
            frequency := "daily",
            times := [fmt02 hv ++ ":" ++ fmt02 mv] } := by
    simp [parse_cron_expression, hs, hstep, hhw, hhv, hmv]
  refine ⟨_, hrec, rfl, rfl, ?_, ?_, ?_⟩
  · intro h12
    subst h12
    rfl
  · intro h0
    subst h0
    rfl
  · intro k hk1 hk12 hk
    have hX : (if (if hv ≤ 12 then hv else hv - 12) = 0 then (12 : Int)
               else if hv ≤ 12 then hv else hv - 12) = k := by
      rcases hk with h | h <;> subst h <;> split_ifs <;> omega
    rw [hX]

/-- Witness for `C5_daily` at `"* 14 * * *"` (wildcard minute becomes 0,
hour 14 renders as `2pm`). -/
theorem C5_daily_witness :
    ∃ sched : Schedule,
      parse_cron_expression "* 14 * * *" = .ok sched ∧
      sched.frequency = "daily" ∧
      sched.times = [fmt02 14 ++ ":" ++ fmt02 0] ∧
      ((14 : Int) = 12 → sched.display = "daily 12:" ++ fmt02 0 ++ "pm") ∧
      ((14 : Int) = 0 → sched.display = "daily 12:" ++ fmt02 0 ++ "am") ∧
      (∀ k : Int, 1 ≤ k → k ≤ 12 → ((14 : Int) = k ∨ (14 : Int) = k + 12) →
        sched.display =
          "daily " ++ toString k ++ ":" ++ fmt02 0 ++
            (if (14 : Int) < 12 then "am" else "pm")) :=
  C5_daily "* 14 * * *" "*" "14" 14 0 (by decide) (by decide) (by decide)
    (by decide) (by decide)

/-! ### The phrase parser `parse_schedule`

The script uses `re.search` with five fixed patterns.  In each of them,
every quantified class (`\d+`, `\w+`, `\s+`) is followed by a literal of
a disjoint character class, so backtracking never helps and each pattern
is equivalent to a maximal-munch scan; `re.search` semantics is the
leftmost starting position at which the scan succeeds. -/

/-- Pattern tail `(am|pm)`: matches at the head of the list. -/
def matchAmPm : List Char → Option String
  | 'a' :: 'm' :: _ => some "am"
  | 'p' :: 'm' :: _ => some "pm"
  | _ => none

/-- Match of `(\d+):(\d+)(am|pm)` anchored at the head of the list,
returning the two digit groups and the am/pm group. -/
def matchHMAt (s : List Char) : Option (String × String × String) :=
  let d1 := s.takeWhile Char.isDigit
  let r1 := s.dropWhile Char.isDigit
  if d1 = [] then none
  else
    match r1 with
    | ':' :: r2 =>
      let d2 := r2.takeWhile Char.isDigit
      let r3 := r2.dropWhile Char.isDigit
      if d2 = [] then none
      else (matchAmPm r3).map (fun ap => (String.mk d1, String.mk d2, ap))
    | _ => none

/-- Match of `(\d+)(am|pm)` anchored at the head of the list. -/
def matchHAt (s : List Char) : Option (String × String) :=
  let d1 := s.takeWhile Char.isDigit
  let r1 := s.dropWhile Char.isDigit
  if d1 = [] then none
  else (matchAmPm r1).map (fun ap => (String.mk d1, ap))

/-- Python regex `\w` (ASCII range): letters, digits and underscore. -/
def isWordChar (c : Char) : Bool := c.isAlphanum || c = '_'

/-- Match of `(\w+)\s+(\d+):(\d+)(am|pm)` anchored at the head. -/
def matchDayHMAt (s : List Char) : Option (String × String × String × String) :=
  let w := s.takeWhile isWordChar
  let r1 := s.dropWhile isWordChar
  if w = [] then none
  else
    let sp := r1.takeWhile Char.isWhitespace
    let r2 := r1.dropWhile Char.isWhitespace
    if sp = [] then none
    else (matchHMAt r2).map (fun t => (String.mk w, t))

/-- Match of `(\w+)\s+(\d+)(am|pm)` anchored at the head. -/
def matchDayHAt (s : List Char) : Option (String × String × String) :=
  let w := s.takeWhile isWordChar
  let r1 := s.dropWhile isWordChar
  if w = [] then none
  else
    let sp := r1.takeWhile Char.isWhitespace
    let r2 := r1.dropWhile Char.isWhitespace
    if sp = [] then none
    else (matchHAt r2).map (fun t => (String.mk w, t))

/-- Match of `:(\d+)` anchored at the head (the "hourly" pattern). -/
def matchColonAt : List Char → Option String
  | ':' :: r =>
    let d := r.takeWhile Char.isDigit
    if d = [] then none else some (String.mk d)
  | _ => none

/-- `re.search`: try the anchored matcher at every position left to
right and return the first success. -/
def reSearch {α : Type} (m : List Char → Option α) : List Char → Option α
  | [] => m []
  | c :: t =>
    match m (c :: t) with
    | some r => some r
    | none => reSearch m t

/-- The 12-hour → 24-hour conversion the script repeats in every branch:
`pm` and hour ≠ 12 adds 12; `am` and hour = 12 gives 0; otherwise the
hour is unchanged. -/
def to24Hour (hour : Int) (ap : String) : Int :=
  if ap = "pm" ∧ hour ≠ 12 then hour + 12
  else if ap = "am" ∧ hour = 12 then 0
  else hour

/-- `parse_schedule` from the script: priority-ordered substring checks
over the lower-cased phrase, each branch filling in `frequency`,
`times` and (for weekly) `day` on top of the
`{display := input, frequency := "unknown", times := []}` base record. -/
def parse_schedule (schedule_str : String) : Schedule :=
  let s := pyLower schedule_str
  let base : Schedule := { display := schedule_str, frequency := "unknown", times := [] }
  if pyContains s "every 5 min" then
    { base with frequency := "every-5-min", times := ["recurring"] }
  else if pyContains s "every 10 min" then
    { base with frequency := "every-10-min", times := ["recurring"] }
  else if pyContains s "every 15 min" then
    { base with frequency := "every-15-min", times := ["recurring"] }
  else if pyContains s "hourly" then
    let t := match reSearch matchColonAt s.data with
      | some d => ":" ++ d
      | none => ":00"
    { base with frequency := "hourly", times := [t] }
  else if pyContains s "daily" then
    match reSearch matchHMAt s.data with
    | some (hs, ms, ap) =>
      { base with frequency := "daily",
                  times := [fmt02 (to24Hour (digitsToNat hs.data) ap) ++ ":" ++ ms] }
    | none =>
      match reSearch matchHAt s.data with
      | some (hs, ap) =>
        { base with frequency := "daily",
                    times := [fmt02 (to24Hour (digitsToNat hs.data) ap) ++ ":00"] }
      | none => { base with frequency := "daily" }
  else if pyContains s "weekly" then
    match reSearch matchDayHMAt s.data with
    | some (w, hs, ms, ap) =>
      { base with frequency := "weekly",
                  day := some (pyCapitalize w),
                  times := [fmt02 (to24Hour (digitsToNat hs.data) ap) ++ ":" ++ ms] }
    | none =>
      match reSearch matchDayHAt s.data with
      | some (w, hs, ap) =>
        { base with frequency := "weekly",
                    day := some (pyCapitalize w),
                    times := [fmt02 (to24Hour (digitsToNat hs.data) ap) ++ ":00"] }
      | none => { base with frequency := "weekly" }
  else if pyContains s "monthly" then
    match reSearch matchHMAt s.data with
    | some (hs, ms, ap) =>
      { base with frequency := "monthly",
                  times := [fmt02 (to24Hour (digitsToNat hs.data) ap) ++ ":" ++ ms] }
    | none =>
      match reSearch matchHAt s.data with
      | some (hs, ap) =>
        { base with frequency := "monthly",
                    times := [fmt02 (to24Hour (digitsToNat hs.data) ap) ++ ":00"] }
      | none => { base with frequency := "monthly" }
  else base

example : parse_schedule "daily 3:30pm" =
    { display := "daily 3:30pm", frequency := "daily", times := ["15:30"] } := by decide

example : parse_schedule "Runs hourly at :15" =
    { display := "Runs hourly at :15", frequency := "hourly", times := [":15"] } := by decide

example : parse_schedule "weekly mon 9am" =
    { display := "weekly mon 9am", frequency := "weekly", times := ["09:00"],
      day := some "Mon" } := by decide

example : parse_schedule "every 5 min" =
    { display := "every 5 min", frequency := "every-5-min", times := ["recurring"] } := by
  decide

example : parse_schedule "whenever" =
    { display := "whenever", frequency := "unknown", times := [] } := by decide

/-! ### Claims C6 and C7: the "daily" and "weekly" phrase branches -/

/-- Claim C6: every phrase containing `"daily"` (case-insensitively) and
matching no earlier pattern gets `frequency = "daily"`; a matched
12-hour time token is converted to 24-hour form by the rule `to24Hour`
(pm and hour ≠ 12 adds 12, am and hour = 12 gives 0, else unchanged);
with no time token `times` stays empty; in particular
`"daily 3:30pm" ↦ ["15:30"]`, `"daily 4am" ↦ ["04:00"]`,
`"daily 12am" ↦ ["00:00"]`, `"daily 12pm" ↦ ["12:00"]`. -/
theorem C6_daily_phrase (s : String)
    (hdaily : pyContains (pyLower s) "daily" = true)
    (h5 : pyContains (pyLower s) "every 5 min" = false)
    (h10 : pyContains (pyLower s) "every 10 min" = false)
    (h15 : pyContains (pyLower s) "every 15 min" = false)
    (hhourly : pyContains (pyLower s) "hourly" = false) :
    (parse_schedule s).frequency = "daily" ∧
    (∀ hs ms ap, reSearch matchHMAt (pyLower s).data = some (hs, ms, ap) →
      (parse_schedule s).times =
        [fmt02 (to24Hour (digitsToNat hs.data) ap) ++ ":" ++ ms]) ∧
    (reSearch matchHMAt (pyLower s).data = none →
      ∀ hs ap, reSearch matchHAt (pyLower s).data = some (hs, ap) →
        (parse_schedule s).times =
          [fmt02 (to24Hour (digitsToNat hs.data) ap) ++ ":00"]) ∧
    (reSearch matchHMAt (pyLower s).data = none →
      reSearch matchHAt (pyLower s).data = none →
      (parse_schedule s).times = []) ∧
    (parse_schedule "daily 3:30pm").times = ["15:30"] ∧
    (parse_schedule "daily 4am").times = ["04:00"] ∧
    (parse_schedule "daily 12am").times = ["00:00"] ∧
    (parse_schedule "daily 12pm").times = ["12:00"] := by
  refine ⟨?_, ?_, ?_, ?_, by decide, by decide, by decide, by decide⟩ <;>
    simp only [parse_schedule, hdaily, h5, h10, h15, hhourly] <;>
    simp only [Bool.false_eq_true, if_false, if_true]
  · cases e1 : reSearch matchHMAt (pyLower s).data with
    | some v => obtain ⟨hs, ms, ap⟩ := v; simp
    | none =>
      cases e2 : reSearch matchHAt (pyLower s).data with
      | some v => obtain ⟨hs, ap⟩ := v; simp
      | none => simp
  · intro hs ms ap e1
    rw [e1]
  · intro e1 hs ap e2
    rw [e1, e2]
  · intro e1 e2
    rw [e1, e2]

/-- Witness for `C6_daily_phrase` at the concrete input `"daily 3:30pm"`. -/
theorem C6_daily_phrase_witness :
    (parse_schedule "daily 3:30pm").frequency = "daily" ∧
    (parse_schedule "daily 3:30pm").times = ["15:30"] :=
  ⟨(C6_daily_phrase "daily 3:30pm" (by decide) (by decide) (by decide) (by decide)
      (by decide)).1,
   (C6_daily_phrase "daily 3:30pm" (by decide) (by decide) (by decide) (by decide)
      (by decide)).2.2.2.2.1⟩

/-- Claim C7: every phrase containing `"weekly"` and matching no earlier
pattern gets `frequency = "weekly"`; a matched day + 12-hour time sets
`day` to the day token capitalized and `times` to the 24-hour time; with
no day/time match `times` stays empty and `day` is absent; in particular
`parse_schedule "weekly mon 9am"` has `day = "Mon"` and
`times = ["09:00"]`. -/
theorem C7_weekly_phrase (s : String)
    (hweekly : pyContains (pyLower s) "weekly" = true)
    (h5 : pyContains (pyLower s) "every 5 min" = false)
    (h10 : pyContains (pyLower s) "every 10 min" = false)
    (h15 : pyContains (pyLower s) "every 15 min" = false)
    (hhourly : pyContains (pyLower s) "hourly" = false)
    (hdaily : pyContains (pyLower s) "daily" = false) :
    (parse_schedule s).frequency = "weekly" ∧
    (∀ w hs ms ap, reSearch matchDayHMAt (pyLower s).data = some (w, hs, ms, ap) →
      (parse_schedule s).day = some (pyCapitalize w) ∧
      (parse_schedule s).times =
        [fmt02 (to24Hour (digitsToNat hs.data) ap) ++ ":" ++ ms]) ∧
    (reSearch matchDayHMAt (pyLower s).data = none →
      ∀ w hs ap, reSearch matchDayHAt (pyLower s).data = some (w, hs, ap) →
        (parse_schedule s).day = some (pyCapitalize w) ∧
        (parse_schedule s).times =
          [fmt02 (to24Hour (digitsToNat hs.data) ap) ++ ":00"]) ∧
    (reSearch matchDayHMAt (pyLower s).data = none →
      reSearch matchDayHAt (pyLower s).data = none →
      (parse_schedule s).times = [] ∧ (parse_schedule s).day = none) ∧
    parse_schedule "weekly mon 9am" =
      { display := "weekly mon 9am", frequency := "weekly",
        times := ["09:00"], day := some "Mon" } := by
  refine ⟨?_, ?_, ?_, ?_, by decide⟩ <;>
    simp only [parse_schedule, hweekly, h5, h10, h15, hhourly, hdaily] <;>
    simp only [Bool.false_eq_true, if_false, if_true]
  · cases e1 : reSearch matchDayHMAt (pyLower s).data with
    | some v => obtain ⟨w, hs, ms, ap⟩ := v; simp
    | none =>
      cases e2 : reSearch matchDayHAt (pyLower s).data with
      | some v => obtain ⟨w, hs, ap⟩ := v; simp
      | none => simp
  · intro w hs ms ap e1
    rw [e1]
    exact ⟨rfl, rfl⟩
  · intro e1 w hs ap e2
    rw [e1, e2]
    exact ⟨rfl, rfl⟩
  · intro e1 e2
    rw [e1, e2]
    exact ⟨rfl, rfl⟩

/-- Witness for `C7_weekly_phrase` at the concrete input
`"weekly mon 9am"`. -/
theorem C7_weekly_phrase_witness :
    (parse_schedule "weekly mon 9am").frequency = "weekly" ∧
    parse_schedule "weekly mon 9am" =
      { display := "weekly mon 9am", frequency := "weekly",
        times := ["09:00"], day := some "Mon" } :=
  ⟨(C7_weekly_phrase "weekly mon 9am" (by decide) (by decide) (by decide) (by decide)
      (by decide) (by decide)).1,
   (C7_weekly_phrase "weekly mon 9am" (by decide) (by decide) (by decide) (by decide)
      (by decide) (by decide)).2.2.2.2⟩

/-! ### Events and the three source loaders

Each loader is a function from an explicit input state (the outcome of
its file read or process invocation) to the pair
(events produced, warning lines printed). -/

/-- An aggregated event.  Optional JSON keys are `Option`-valued and
`none` when the Python dict has no such key. -/
structure Event where
  id : String
  name : String
  schedule : Schedule
  source : String
  logfile : Option String := none
  script : Option String := none
  description : Option String := none
  deriving Repr, DecidableEq

/-- The nested `schedule` object of a task-scheduler job. -/
structure JobSchedule where
  kind : Option String := none
  expr : Option String := none
  deriving Repr, DecidableEq

/-- One entry of the `jobs` array in `~/.openclaw/cron/jobs.json`.
`id` is `Option`-valued because `job['id']` raises `KeyError` when the
key is missing. -/
structure OpenclawJob where
  id : Option String := none
  name : Option String := none
  enabled : Option Bool := none
  schedule : Option JobSchedule := none
  description : Option String := none
  deriving Repr, DecidableEq

/-- The parsed content of the task-scheduler file. -/
structure OpenclawData where
  jobs : List OpenclawJob := []
  deriving Repr, DecidableEq

/-- Outcome of reading one input file: the path does not exist, the
open/`json.load` raised, or the parsed data. -/
inductive FileRead (α : Type) where
  | absent
  | readError (msg : String)
  | ok (data : α)
  deriving Repr, DecidableEq

/-- One iteration of the job loop in `load_openclaw_jobs`:
`.ok none` means the job is skipped, `.ok (some ev)` appends an event,
`.error` is a Python exception escaping the iteration (evaluation order
of the dict literal: the `job['id']` lookup runs before
`parse_cron_expression`). -/
def openclawJobEvent (job : OpenclawJob) : Except String (Option Event) :=
  if !(job.enabled.getD true) then .ok none
  else
    let schedule_data := job.schedule.getD {}
    if schedule_data.kind = some "cron" then
      let cron_expr := schedule_data.expr.getD ""
      match job.id with
      | none => .error "KeyError: id"
      | some jid =>
        match parse_cron_expression cron_expr with
        | .error e => .error e
        | .ok sched =>
          .ok (some { id := "openclaw-" ++ pyTake jid 8,
                      name := job.name.getD "Unknown OpenClaw Job",
                      schedule := sched,
                      source := "OpenClaw Scheduler",
                      description := some (job.description.getD "") })
    else .ok none

/-- The job loop: events accumulated in order; an exception stops the
loop, keeping the events accumulated so far and recording the error. -/
def runJobs : List OpenclawJob → List Event × Option String
  | [] => ([], none)
  | j :: rest =>
    match openclawJobEvent j with
    | .error e => ([], some e)
    | .ok none => runJobs rest
    | .ok (some ev) => (ev :: (runJobs rest).1, (runJobs rest).2)

/-- `load_openclaw_jobs` from the script: a missing file yields no events
and no warning; a read/parse failure or an exception escaping the job
loop is caught, a warning is printed, and the jobs accumulated so far
are returned. -/
def load_openclaw_jobs : FileRead OpenclawData → List Event × List String
  | .absent => ([], [])
  | .readError e => ([], ["Warning: Failed to load OpenClaw jobs: " ++ e])
  | .ok data =>
    match runJobs data.jobs with
    | (evs, none) => (evs, [])
    | (evs, some e) => (evs, ["Warning: Failed to load OpenClaw jobs: " ++ e])

/-- Result of the completed `systemctl` subprocess. -/
structure ProcResult where
  returncode : Int
  stdout : String
  deriving Repr, DecidableEq

/-- Outcome of the subprocess invocation: an exception (process not
found, timeout) or a completed run. -/
inductive ProcRun where
  | failed (msg : String)
  | completed (r : ProcResult)
  deriving Repr, DecidableEq

/-- One iteration of the line loop in `load_systemd_timers`: blank lines,
lines with fewer than 5 whitespace-split fields, lines whose
second-to-last field does not end in ".timer", and snap timers are
skipped; the rest become events. -/
def timerLineEvent (line : String) : Option Event :=
  if trimL line.data = [] then none
  else
    let parts := pySplit line
    if parts.length < 5 then none
    else
      let penult := parts.getD (parts.length - 2) ""
      if pyEndsWith penult ".timer" then
        if pyStartsWith penult "snap." then none
        else
          let stem := String.mk (replaceAll penult.data ".timer".data [])
          some { id := "timer-" ++ stem,
                 name := pyTitle (String.mk (replaceAll stem.data "-".data " ".data)),
                 schedule := { display := "systemd timer", frequency := "timer",
                               times := [] },
                 source := "systemd timer" }
      else none

/-- `load_systemd_timers` from the script: on an exception a warning is
printed and no events are returned; on a nonzero exit code, silently no
events; on success the header line and the two footer lines are
discarded and the rest go through the line loop. -/
def load_systemd_timers : ProcRun → List Event × List String
  | .failed e => ([], ["Warning: Failed to load systemd timers: " ++ e])
  | .completed r =>
    if r.returncode = 0 then
      let lines := splitOnNl (trimL r.stdout.data)
      (((lines.drop 1).dropLast.dropLast).filterMap timerLineEvent, [])
    else ([], [])

example :
    timerLineEvent "Mon 2025-01-06 00:00:00 UTC 10h left n/a n/a backup-sync.timer backup-sync.service" =
      some { id := "timer-backup-sync",
             name := "Backup Sync",
             schedule := { display := "systemd timer", frequency := "timer", times := [] },
             source := "systemd timer" } := by decide

example : timerLineEvent "a b c snap.firefox.timer x" = none := by decide

example : timerLineEvent "a b c d e" = none := by decide

/-! ### The config-file loader and the aggregator -/

/-- One component of a group in `health-monitor-config.json`.  `id` and
`name` are `Option`-valued because `component["id"]` / `component["name"]`
raise `KeyError` when missing. -/
structure Component where
  id : Option String := none
  name : Option String := none
  schedule : Option String := none
  type : Option String := none
  logfile : Option String := none
  script : Option String := none
  deriving Repr, DecidableEq

/-- One group of the config file. -/
structure Group where
  components : List Component := []
  deriving Repr, DecidableEq

/-- The parsed config file: `groups` as an insertion-ordered mapping
(JSON object keys are unique). -/
structure Config where
  groups : List (String × Group) := []
  deriving Repr, DecidableEq

/-- Building one config event (the dict literal in `generate_events`,
fields evaluated in source order: id, name, schedule, logfile, script). -/
def buildConfigEvent (c : Component) : Except String Event :=
  match c.id with
  | none => .error "KeyError: id"
  | some i =>
    match c.name with
    | none => .error "KeyError: name"
    | some n =>
      match c.schedule with
      | none => .error "KeyError: schedule"
      | some sch =>
        .ok { id := i, name := n, schedule := parse_schedule sch,
              logfile := some (c.logfile.getD ""),
              script := some (c.script.getD ""),
              source := "system cron" }

/-- Guard of the first config pass: the component carries a `schedule`
field. -/
def pass1Guard (c : Component) : Bool := c.schedule.isSome

/-- Guard of the second config pass: `type == "system_cron"` and a
`schedule` field is present. -/
def pass2Guard (c : Component) : Bool :=
  (c.type == some "system_cron") && c.schedule.isSome

/-- A component loop of the config loader: guarded components become
events in order; an exception stops the loop, keeping the events built
so far. -/
def processComponents (g : Component → Bool) : List Component → List Event × Option String
  | [] => ([], none)
  | c :: rest =>
    if g c then
      match buildConfigEvent c with
      | .error e => ([], some e)
      | .ok ev => (ev :: (processComponents g rest).1, (processComponents g rest).2)
    else processComponents g rest

/-- The second config pass: every group other than `"scheduled-jobs"`,
components filtered by `pass2Guard`; an exception stops the whole pass. -/
def processGroups : List (String × Group) → List Event × Option String
  | [] => ([], none)
  | (gid, g) :: rest =>
    if gid = "scheduled-jobs" then processGroups rest
    else
      match processComponents pass2Guard g.components with
      | (evs, some e) => (evs, some e)
      | (evs, none) => (evs ++ (processGroups rest).1, (processGroups rest).2)

/-- The config-loading `try` block of `generate_events`: a read/parse
failure, or an exception escaping either pass, is caught with a warning;
the events appended before the failure point remain. -/
def load_config_events : Except String Config → List Event × List String
  | .error e => ([], ["Warning: Failed to load system cron jobs: " ++ e])
  | .ok config =>
    let scheduled := ((config.groups.lookup "scheduled-jobs").getD {}).components
    match processComponents pass1Guard scheduled with
    | (evs1, some e) => (evs1, ["Warning: Failed to load system cron jobs: " ++ e])
    | (evs1, none) =>
      match processGroups config.groups with
      | (evs2, some e) =>
        (evs1 ++ evs2, ["Warning: Failed to load system cron jobs: " ++ e])
      | (evs2, none) => (evs1 ++ evs2, [])

/-- The per-source counters of the output document. -/
structure Sources where
  system_cron : Nat
  openclaw : Nat
  systemd : Nat
  total : Nat
  deriving Repr, DecidableEq

/-- The output document written to `cron-events.json`. -/
structure OutputDocument where
  generated : String
  sources : Sources
  events : List Event
  deriving Repr, DecidableEq

/-- The input state of one run: outcomes of the two file reads and of
the subprocess invocation, plus the current timestamp. -/
structure GenInput where
  config : Except String Config
  openclaw : FileRead OpenclawData
  systemd : ProcRun
  now : String

/-- `generate_events` from the script: run the three loaders in order,
concatenate their events, count sources (`system_cron` by filtering the
merged list on the source tag, the other two by loader list length), and
assemble the document.  Returns the document and the warnings printed. -/
def generate_events (inp : GenInput) : OutputDocument × List String :=
  let cfg := load_config_events inp.config
  let oc := load_openclaw_jobs inp.openclaw
  let sd := load_systemd_timers inp.systemd
  let events := cfg.1 ++ oc.1 ++ sd.1
  ({ generated := inp.now,
     sources := { system_cron := (events.filter (fun e => e.source == "system cron")).length,
                  openclaw := oc.1.length,
                  systemd := sd.1.length,
                  total := events.length },
     events := events },
   cfg.2 ++ oc.2 ++ sd.2)

/-! ### Shape lemmas for produced events -/

/-- Every event the OpenClaw job loop produces has the synthesized id
`"openclaw-" ++ first 8 characters of the job id`, the fixed source tag,
and comes from a job that has an `id`. -/
theorem openclawJobEvent_ok_shape (j : OpenclawJob) (ev : Event)
    (h : openclawJobEvent j = .ok (some ev)) :
    ∃ (jid : String) (sched : Schedule),
      j.id = some jid ∧
      ev = { id := "openclaw-" ++ pyTake jid 8,
             name := j.name.getD "Unknown OpenClaw Job",
             schedule := sched,
             source := "OpenClaw Scheduler",
             description := some (j.description.getD "") } := by
  unfold openclawJobEvent at h
  split at h
  · simp at h
  · split at h
    · simp only [] at h
      split at h <;> simp at h
    · rename_i jid heq
      simp only [] at h
      split at h
      · split at h
        · simp at h
        · rename_i sched hp
          simp only [Except.ok.injEq, Option.some.injEq] at h
          exact ⟨jid, sched, heq, h.symm⟩
      · simp at h

/-- Every event the timer line loop produces carries the fixed source
tag `"systemd timer"`. -/
theorem timerLineEvent_source (line : String) (ev : Event)
    (h : timerLineEvent line = some ev) : ev.source = "systemd timer" := by
  simp only [timerLineEvent] at h
  split at h
  · simp at h
  · split at h
    · simp at h
    · split at h
      · split at h
        · simp at h
        · simp only [Option.some.injEq] at h
          rw [← h]
      · simp at h

/-! ### Claim C8: task-scheduler job filtering -/

/-- Claim C8: a job with `enabled = false` contributes zero events; a job
with `enabled` omitted behaves as enabled; a job whose `schedule.kind`
is not `"cron"` contributes zero events; every produced event's id is
`"openclaw-"` followed by the first 8 characters of the job's id. -/
theorem C8_openclaw_job_rules :
    (∀ (j : OpenclawJob) (js : List OpenclawJob),
      j.enabled = some false → runJobs (j :: js) = runJobs js) ∧
    (∀ j : OpenclawJob, j.enabled = none →
      openclawJobEvent j = openclawJobEvent { j with enabled := some true }) ∧
    (∀ (j : OpenclawJob) (js : List OpenclawJob),
      (j.schedule.getD {}).kind ≠ some "cron" → runJobs (j :: js) = runJobs js) ∧
    (∀ (j : OpenclawJob) (ev : Event),
      openclawJobEvent j = .ok (some ev) →
      ∃ jid : String, j.id = some jid ∧ ev.id = "openclaw-" ++ pyTake jid 8) := by
  refine ⟨?_, ?_, ?_, ?_⟩
  · intro j js h
    simp [runJobs, openclawJobEvent, h]
  · intro j h
    simp [openclawJobEvent, h]
  · intro j js h
    have hskip : openclawJobEvent j = .ok none := by
      unfold openclawJobEvent
      split
      · rfl
      · simp [h]
    simp [runJobs, hskip]
  · intro j ev h
    obtain ⟨jid, sched, hid, hev⟩ := openclawJobEvent_ok_shape j ev h
    exact ⟨jid, hid, by rw [hev]⟩

/-- Witness for `C8_openclaw_job_rules` on concrete jobs. -/
theorem C8_openclaw_job_rules_witness :
    runJobs [{ id := some "j1", enabled := some false,
               schedule := some { kind := some "cron", expr := some "*/5 * * * *" } }] =
      runJobs [] ∧
    openclawJobEvent { id := some "j2", enabled := none } =
      openclawJobEvent { id := some "j2", enabled := some true } ∧
    runJobs [{ id := some "j3", enabled := some true,
               schedule := some { kind := some "interval" } }] = runJobs [] ∧
    ∃ jid : String,
      ({ id := some "abcdefgh-1234", name := some "Sync", enabled := some true,
         schedule := some { kind := some "cron", expr := some "*/30 * * * *" } }
          : OpenclawJob).id = some jid ∧
      ({ id := "openclaw-abcdefgh", name := "Sync",
         schedule := { display := "every 30 min", frequency := "every-30-min",
                       times := ["recurring"] },
         source := "OpenClaw Scheduler", description := some "" } : Event).id =
        "openclaw-" ++ pyTake jid 8 :=
  ⟨C8_openclaw_job_rules.1 _ [] (by decide),
   C8_openclaw_job_rules.2.1 _ (by decide),
   C8_openclaw_job_rules.2.2.1 _ [] (by decide),
   C8_openclaw_job_rules.2.2.2 _ _ (by decide)⟩

/-! ### Claim C9: timer-listing line filtering -/

/-- Claim C9: a timer-listing data line with fewer than 5 fields, or
whose second-to-last field does not end with ".timer", or whose unit
name starts with "snap.", contributes no event; and on a zero exit code
the loader processes exactly the lines after the header and before the
two footer lines. -/
theorem C9_timer_line_filters :
    (∀ line : String, (pySplit line).length < 5 → timerLineEvent line = none) ∧
    (∀ line : String,
      pyEndsWith ((pySplit line).getD ((pySplit line).length - 2) "") ".timer" = false →
      timerLineEvent line = none) ∧
    (∀ line : String,
      pyStartsWith ((pySplit line).getD ((pySplit line).length - 2) "") "snap." = true →
      timerLineEvent line = none) ∧
    (∀ r : ProcResult, r.returncode = 0 →
      (load_systemd_timers (.completed r)).1 =
        (((splitOnNl (trimL r.stdout.data)).drop 1).dropLast.dropLast).filterMap
          timerLineEvent) := by
  refine ⟨?_, ?_, ?_, ?_⟩
  · intro line h
    simp [timerLineEvent, h]
  · intro line h
    simp only [List.getD, List.get?_eq_getElem?] at h
    simp [timerLineEvent]
    intro h1 h2 hE
    rw [hE] at h
    exact Bool.noConfusion h
  · intro line h
    simp only [List.getD, List.get?_eq_getElem?] at h
    simp [timerLineEvent]
    intro h1 h2 h3
    exact h
  · intro r h
    simp [load_systemd_timers, h]

/-- Witness for `C9_timer_line_filters` on concrete lines and a concrete
process result. -/
theorem C9_timer_line_filters_witness :
    timerLineEvent "a b c d" = none ∧
    timerLineEvent "a b c d foo.service bar" = none ∧
    timerLineEvent "w x y z snap.foo.timer svc" = none ∧
    (load_systemd_timers
        (.completed { returncode := 0,
                      stdout := "hdr\nMon left x y foo.timer svc\nfoot1\nfoot2" })).1 =
      (((splitOnNl (trimL
          ("hdr\nMon left x y foo.timer svc\nfoot1\nfoot2" : String).data)).drop
            1).dropLast.dropLast).filterMap timerLineEvent :=
  ⟨C9_timer_line_filters.1 "a b c d" (by decide),
   C9_timer_line_filters.2.1 "a b c d foo.service bar" (by decide),
   C9_timer_line_filters.2.2.1 "w x y z snap.foo.timer svc" (by decide),
   C9_timer_line_filters.2.2.2 _ (by decide)⟩

/-! ### Claim C2: loader failure isolation -/

/-- A well-formed task-scheduler job used to probe the loader. -/
def ocGoodJob : OpenclawJob :=
  { id := some "abcdefgh-1234", name := some "Sync", enabled := some true,
    schedule := some { kind := some "cron", expr := some "*/30 * * * *" } }

/-- A job whose `id` key is missing, so the loop raises `KeyError`
after the preceding jobs were already appended. -/
def ocMissingIdJob : OpenclawJob :=
  { id := none, enabled := some true,
    schedule := some { kind := some "cron", expr := some "*/30 * * * *" } }

/-- Claim C2, counterexample: with a jobs file whose second job is
missing its `id` field, the OpenClaw loader fails (a warning is
emitted), yet it contributes one event — not "exactly zero" as the
claim requires for a failed parse with missing fields. -/
theorem C2_counterexample :
    (load_openclaw_jobs (.ok { jobs := [ocGoodJob, ocMissingIdJob] })).2 =
      ["Warning: Failed to load OpenClaw jobs: KeyError: id"] ∧
    (load_openclaw_jobs (.ok { jobs := [ocGoodJob, ocMissingIdJob] })).1.length = 1 := by
  exact ⟨by decide, by decide⟩

/-- Claim C2 (amended): when a loader's read or parse fails, a warning
naming the cause is emitted, the run is not aborted (the other loaders'
events still reach the document), and the failing loader contributes
exactly the events built before the failure point — in particular zero
events when the failure occurs at read time (missing file, malformed
JSON, process error, timeout) or before any event is built. -/
theorem C2_loader_isolation (e1 e2 e3 : String) (cfg : Except String Config)
    (oc : FileRead OpenclawData) (sd : ProcRun) (now : String) :
    load_config_events (.error e1) =
      ([], ["Warning: Failed to load system cron jobs: " ++ e1]) ∧
    load_openclaw_jobs (.readError e2) =
      ([], ["Warning: Failed to load OpenClaw jobs: " ++ e2]) ∧
    load_systemd_timers (.failed e3) =
      ([], ["Warning: Failed to load systemd timers: " ++ e3]) ∧
    (generate_events { config := .error e1, openclaw := oc, systemd := sd,
                       now := now }).1.events =
      (load_openclaw_jobs oc).1 ++ (load_systemd_timers sd).1 ∧
    ("Warning: Failed to load system cron jobs: " ++ e1) ∈
      (generate_events { config := .error e1, openclaw := oc, systemd := sd,
                         now := now }).2 ∧
    (generate_events { config := cfg, openclaw := .readError e2, systemd := sd,
                       now := now }).1.events =
      (load_config_events cfg).1 ++ (load_systemd_timers sd).1 ∧
    (generate_events { config := cfg, openclaw := oc, systemd := .failed e3,
                       now := now }).1.events =
      (load_config_events cfg).1 ++ (load_openclaw_jobs oc).1 ∧
    (∀ (js1 js2 : List OpenclawJob) (j : OpenclawJob) (err : String),
      openclawJobEvent j = .error err → (runJobs js1).2 = none →
      runJobs (js1 ++ j :: js2) = ((runJobs js1).1, some err)) := by
  refine ⟨rfl, rfl, rfl, ?_, ?_, ?_, ?_, ?_⟩
  · simp [generate_events, load_config_events]
  · simp [generate_events, load_config_events]
  · simp [generate_events, load_openclaw_jobs]
  · simp [generate_events, load_systemd_timers]
  · intro js1 js2 j err hj
    induction js1 with
    | nil =>
      intro _
      simp [runJobs, hj]
    | cons a t ih =>
      intro hok
      cases ha : openclawJobEvent a with
      | error e =>
        exfalso
        simp [runJobs, ha] at hok
      | ok o =>
        cases o with
        | none =>
          simp only [List.cons_append, runJobs, ha] at hok ⊢
          exact ih hok
        | some ev =>
          simp only [List.cons_append, runJobs, ha] at hok ⊢
          rw [show t.append (j :: js2) = t ++ j :: js2 from rfl, ih hok]

/-- Witness for `C2_loader_isolation` at concrete inputs: a failed
config read contributes zero events with a warning, and a `KeyError`
mid-loop keeps exactly the events built before the failure point. -/
theorem C2_loader_isolation_witness :
    load_config_events (.error "boom") =
      ([], ["Warning: Failed to load system cron jobs: boom"]) ∧
    runJobs ([ocGoodJob] ++ ocMissingIdJob :: []) =
      ((runJobs [ocGoodJob]).1, some "KeyError: id") :=
  ⟨(C2_loader_isolation "boom" "x" "y" (.error "z") .absent (.failed "w") "t").1,
   (C2_loader_isolation "boom" "x" "y" (.error "z") .absent (.failed "w") "t").2.2.2.2.2.2.2
     [ocGoodJob] [] ocMissingIdJob "KeyError: id" (by decide) (by decide)⟩

/-! ### Claim C10: source tags and counters -/

/-- Every event built from a config component carries the source tag
`"system cron"`. -/
theorem buildConfigEvent_source (c : Component) (ev : Event)
    (h : buildConfigEvent c = .ok ev) : ev.source = "system cron" := by
  unfold buildConfigEvent at h
  split at h
  · simp at h
  · split at h
    · simp at h
    · split at h
      · simp at h
      · simp only [Except.ok.injEq] at h
        rw [← h]

/-- Every event of a config component loop carries the `"system cron"`
source tag. -/
theorem processComponents_source (g : Component → Bool) (cs : List Component) :
    ∀ e ∈ (processComponents g cs).1, e.source = "system cron" := by
  induction cs with
  | nil => simp [processComponents]
  | cons c rest ih =>
    intro e he
    simp only [processComponents] at he
    by_cases hg : g c
    · rw [if_pos hg] at he
      cases hb : buildConfigEvent c with
      | error err =>
        rw [hb] at he
        simp at he
      | ok ev =>
        rw [hb] at he
        simp only [List.mem_cons] at he
        rcases he with he | he
        · rw [he]
          exact buildConfigEvent_source c ev hb
        · exact ih e he
    · rw [if_neg hg] at he
      exact ih e he

/-- Every event of the second config pass carries the `"system cron"`
source tag. -/
theorem processGroups_source (gs : List (String × Group)) :
    ∀ e ∈ (processGroups gs).1, e.source = "system cron" := by
  induction gs with
  | nil => simp [processGroups]
  | cons p rest ih =>
    intro e he
    obtain ⟨gid, g⟩ := p
    simp only [processGroups] at he
    by_cases hg : gid = "scheduled-jobs"
    · rw [if_pos hg] at he
      exact ih e he
    · rw [if_neg hg] at he
      cases hpc : processComponents pass2Guard g.components with
      | mk evs err =>
        rw [hpc] at he
        cases err with
        | some msg =>
          have : e ∈ (processComponents pass2Guard g.components).1 := by
            rw [hpc]; exact he
          exact processComponents_source pass2Guard g.components e this
        | none =>
          simp only [List.mem_append] at he
          rcases he with he | he
          · have : e ∈ (processComponents pass2Guard g.components).1 := by
              rw [hpc]; exact he
            exact processComponents_source pass2Guard g.components e this
          · exact ih e he

/-- Every event of the config loader carries the `"system cron"` tag. -/
theorem load_config_events_source (c : Except String Config) :
    ∀ e ∈ (load_config_events c).1, e.source = "system cron" := by
  cases c with
  | error e => simp [load_config_events]
  | ok config =>
    intro e he
    simp only [load_config_events] at he
    cases h1 : processComponents pass1Guard
        ((config.groups.lookup "scheduled-jobs").getD {}).components with
    | mk evs1 err1 =>
      rw [h1] at he
      cases err1 with
      | some msg =>
        have : e ∈ (processComponents pass1Guard
            ((config.groups.lookup "scheduled-jobs").getD {}).components).1 := by
          rw [h1]; exact he
        exact processComponents_source _ _ e this
      | none =>
        cases h2 : processGroups config.groups with
        | mk evs2 err2 =>
          rw [h2] at he
          have hmem : e ∈ evs1 ++ evs2 := by
            cases err2 with
            | some msg => exact he
            | none => exact he
          simp only [List.mem_append] at hmem
          rcases hmem with hm | hm
          · have : e ∈ (processComponents pass1Guard
                ((config.groups.lookup "scheduled-jobs").getD {}).components).1 := by
              rw [h1]; exact hm
            exact processComponents_source _ _ e this
          · have : e ∈ (processGroups config.groups).1 := by
              rw [h2]; exact hm
            exact processGroups_source config.groups e this

/-- Every event of the OpenClaw job loop carries the fixed
`"OpenClaw Scheduler"` source tag. -/
theorem runJobs_source (js : List OpenclawJob) :
    ∀ e ∈ (runJobs js).1, e.source = "OpenClaw Scheduler" := by
  induction js with
  | nil => simp [runJobs]
  | cons j rest ih =>
    intro e he
    simp only [runJobs] at he
    cases hj : openclawJobEvent j with
    | error err =>
      rw [hj] at he
      simp at he
    | ok o =>
      cases o with
      | none =>
        rw [hj] at he
        exact ih e he
      | some ev =>
        rw [hj] at he
        simp only [List.mem_cons] at he
        rcases he with he | he
        · obtain ⟨jid, sched, _, hev⟩ := openclawJobEvent_ok_shape j ev hj
          rw [he, hev]
        · exact ih e he

/-- Every event of the OpenClaw loader carries the
`"OpenClaw Scheduler"` source tag. -/
theorem load_openclaw_jobs_source (oc : FileRead OpenclawData) :
    ∀ e ∈ (load_openclaw_jobs oc).1, e.source = "OpenClaw Scheduler" := by
  cases oc with
  | absent => simp [load_openclaw_jobs]
  | readError msg => simp [load_openclaw_jobs]
  | ok data =>
    intro e he
    simp only [load_openclaw_jobs] at he
    cases hr : runJobs data.jobs with
    | mk evs err =>
      rw [hr] at he
      have : e ∈ (runJobs data.jobs).1 := by
        rw [hr]
        cases err with
        | some msg => exact he
        | none => exact he
      exact runJobs_source data.jobs e this

/-- Every event of the systemd loader carries the `"systemd timer"`
source tag. -/
theorem load_systemd_timers_source (p : ProcRun) :
    ∀ e ∈ (load_systemd_timers p).1, e.source = "systemd timer" := by
  cases p with
  | failed msg => simp [load_systemd_timers]
  | completed r =>
    intro e he
    simp only [load_systemd_timers] at he
    by_cases hrc : r.returncode = 0
    · rw [if_pos hrc] at he
      simp only [List.mem_filterMap] at he
      obtain ⟨line, _, hline⟩ := he
      exact timerLineEvent_source line e hline
    · rw [if_neg hrc] at he
      simp at he

/-- Claim C10: in every document the program writes, `sources.total`
equals the length of the events array and equals
`system_cron + openclaw + systemd`, because every config-loader event is
tagged `"system cron"` and no event of the other two loaders carries
that tag. -/
theorem C10_source_counts (inp : GenInput) :
    (generate_events inp).1.sources.total = (generate_events inp).1.events.length ∧
    (generate_events inp).1.sources.total =
      (generate_events inp).1.sources.system_cron +
        (generate_events inp).1.sources.openclaw +
        (generate_events inp).1.sources.systemd ∧
    (∀ e ∈ (load_config_events inp.config).1, e.source = "system cron") ∧
    (∀ e ∈ (load_openclaw_jobs inp.openclaw).1, e.source ≠ "system cron") ∧
    (∀ e ∈ (load_systemd_timers inp.systemd).1, e.source ≠ "system cron") := by
  have hcfg := load_config_events_source inp.config
  have hoc := load_openclaw_jobs_source inp.openclaw
  have hsd := load_systemd_timers_source inp.systemd
  have hfilter :
      ((load_config_events inp.config).1 ++ (load_openclaw_jobs inp.openclaw).1 ++
          (load_systemd_timers inp.systemd).1).filter
        (fun e => e.source == "system cron") = (load_config_events inp.config).1 := by
    rw [List.filter_append, List.filter_append]
    rw [List.filter_eq_self.mpr, List.filter_eq_nil_iff.mpr, List.filter_eq_nil_iff.mpr]
    · simp
    · intro e he
      simp [hsd e he]
    · intro e he
      simp [hoc e he]
    · intro e he
      simp [hcfg e he]
  refine ⟨?_, ?_, hcfg, ?_, ?_⟩
  · rfl
  · show ((load_config_events inp.config).1 ++ (load_openclaw_jobs inp.openclaw).1 ++
        (load_systemd_timers inp.systemd).1).length = _
    simp only [generate_events, hfilter]
    simp [List.length_append]
    omega
  · intro e he
    rw [hoc e he]
    decide
  · intro e he
    rw [hsd e he]
    decide

/-- Witness for `C10_source_counts` at a concrete input state. -/
theorem C10_source_counts_witness :
    (generate_events { config := .error "e", openclaw := .absent,
                       systemd := .failed "f", now := "t" }).1.sources.total =
      (generate_events { config := .error "e", openclaw := .absent,
                         systemd := .failed "f", now := "t" }).1.events.length ∧
    (generate_events { config := .error "e", openclaw := .absent,
                       systemd := .failed "f", now := "t" }).1.sources.total =
      (generate_events { config := .error "e", openclaw := .absent,
                         systemd := .failed "f", now := "t" }).1.sources.system_cron +
        (generate_events { config := .error "e", openclaw := .absent,
                           systemd := .failed "f", now := "t" }).1.sources.openclaw +
        (generate_events { config := .error "e", openclaw := .absent,
                           systemd := .failed "f", now := "t" }).1.sources.systemd :=
  ⟨(C10_source_counts _).1, (C10_source_counts _).2.1⟩

end CronGen
